import Mathlib

/-!
Verification development for the carajillo newsletter backend.

The definitions below are a shallow embedding of the TypeScript source:
* `src/backend/captcha.ts` — CAPTCHA verification (`verifyCaptcha`,
  `CaptchaVerifier.verify`, `CaptchaVerifier.handleErrorCodes`,
  `CaptchaVerifier.sendVerificationRequest`).
* `src/backend/http.ts` — the structured `HttpError` shape.
* The subscription reconciler and the JWT token authority are exercised by
  `src/backend/__tests__/captcha.test.ts` but their implementation files are
  absent from the source tree; those parts are modelled from the
  specification (each such definition is marked `Modelled from the spec:`).

Outbound network effects are made explicit: a function that performs a
`fetch` takes the provider's HTTP response as an extra argument, and the
entry point `verifyCaptcha` additionally reports whether a verification
request was performed at all.

JavaScript truthiness that matters for control flow is embedded faithfully:
`!token` is true for an absent token and for the empty string, and
`if (data['error-codes'])` tests mere presence of the field (a present but
empty array still enters the error-classification branch).

Scores and the threshold are IEEE doubles in `[0,1]` in the source; only
order comparisons are performed on them (never arithmetic), so they are
embedded as rationals, on which `<` agrees with the double comparison for
every representable value.
-/

set_option linter.unusedVariables false

namespace Carajillo

/-- `HttpErrorProperties` from `src/backend/http.ts`: status code, message,
optional machine-readable reason, optional internal detail string. -/
structure HttpErrorProps where
  statusCode : Nat
  message : String
  reason : Option String := Option.none
  details : Option String := Option.none
deriving DecidableEq, Repr

/-- A thrown JavaScript error: either a structured `HttpError` or a plain
`Error` carrying only a message. -/
inductive JsError where
  | http (e : HttpErrorProps)
  | generic (message : String)
deriving DecidableEq, Repr

/-- `CaptchaProvider` from `src/backend/config.ts`:
`'recaptcha' | 'hcaptcha' | 'none'`. -/
inductive CaptchaProvider where
  | recaptcha
  | hcaptcha
  | none
deriving DecidableEq, Repr

/-- The provider's name as the string used in template literals. -/
def CaptchaProvider.name : CaptchaProvider → String
  | .recaptcha => "recaptcha"
  | .hcaptcha => "hcaptcha"
  | .none => "none"

/-- `CaptchaConfiguration` from `src/backend/config.ts` (the fields consumed
by the verifier; `branding` only affects the frontend widget). -/
structure CaptchaConfiguration where
  provider : CaptchaProvider
  siteKey : String
  secret : String
  threshold : ℚ
  branding : String := "disclaimer"
deriving DecidableEq, Repr

/-- `CaptchaResponse` from `src/backend/captcha.ts`: the parsed JSON body of
the provider's siteverify answer. `errorCodes` embeds the `'error-codes'`
field; `Option.none` means the field is absent. -/
structure CaptchaResponse where
  success : Bool
  score : Option ℚ := Option.none
  action : String := ""
  challenge_ts : String := ""
  hostname : String := ""
  errorCodes : Option (List String) := Option.none
deriving DecidableEq, Repr

/-- The transport-level result of the `fetch` to the provider: `ok` is the
2xx flag, `status` the HTTP status, `data` the parsed JSON body. -/
structure FetchResponse where
  ok : Bool
  status : Nat := 200
  data : CaptchaResponse
deriving DecidableEq, Repr

/-- The `HttpError` thrown by `CaptchaVerifier.verify` when the token is
absent (`src/backend/captcha.ts:102-109`). -/
def missingCaptchaTokenError : HttpErrorProps :=
  ⟨400, "Bad request", some "missing-captcha-token", some "CAPTCHA token is required"⟩

/-- The `HttpError` thrown on a reCAPTCHA action mismatch
(`src/backend/captcha.ts:116-121`). -/
def actionMismatchError : HttpErrorProps :=
  ⟨400, "Bad request", some "captcha-action-mismatch", some "CAPTCHA error: action-mismatch"⟩

/-- The BadCaptcha classification (`src/backend/captcha.ts:144-149`). -/
def badCaptchaError (errorCodes : List String) : HttpErrorProps :=
  ⟨400, "Bad request", some "bad-captcha",
    some ("CAPTCHA error: " ++ String.intercalate ", " errorCodes)⟩

/-- The CaptchaTimeout classification (`src/backend/captcha.ts:152-157`). -/
def captchaTimeoutError (errorCodes : List String) : HttpErrorProps :=
  ⟨429, "Try again", some "captcha-timeout",
    some ("CAPTCHA error: " ++ String.intercalate ", " errorCodes)⟩

/-- The ProviderError classification (`src/backend/captcha.ts:159-163`): a
500 with no machine-readable reason. -/
def unclassifiedCodesError (errorCodes : List String) : HttpErrorProps :=
  ⟨500, "Internal server error", Option.none,
    some ("CAPTCHA error: " ++ String.intercalate ", " errorCodes)⟩

/-- The 500 thrown when the provider reports `success:false` with no
error codes (`src/backend/captcha.ts:214-218`). -/
def validationFailedError (provider : CaptchaProvider) : HttpErrorProps :=
  ⟨500, "Internal server error", Option.none, some (provider.name ++ " validation failed")⟩

namespace CaptchaVerifier

/-- `CaptchaVerifier.handleErrorCodes` (`src/backend/captcha.ts:141-164`):
classifies a provider error-code list and always throws. The `provider`
argument is only interpolated into the diagnostic log line in the source. -/
def handleErrorCodes (provider : CaptchaProvider) (errorCodes : List String) : JsError :=
  if errorCodes.contains "invalid-input-response" || errorCodes.contains "missing-input-response" then
    .http (badCaptchaError errorCodes)
  else if errorCodes.contains "timeout-or-duplicate" || errorCodes.contains "expired-input-response" then
    .http (captchaTimeoutError errorCodes)
  else
    .http (unclassifiedCodesError errorCodes)

/-- `CaptchaVerifier.sendVerificationRequest` (`src/backend/captcha.ts:173-220`).
The form-encoded POST (`secret`, `response=token`, optional `remoteip`) goes
to the provider's fixed endpoint; `response` is what that call answered.
Order of checks in the source: non‑2xx transport → generic `Error`; presence
of `error-codes` → `handleErrorCodes` (before the `success` check); then
`success:false` → 500. -/
def sendVerificationRequest (config : CaptchaConfiguration) (token : String)
    (remoteIp : Option String) (response : FetchResponse) :
    Except JsError CaptchaResponse :=
  if !response.ok then
    .error (.generic ("CAPTCHA API returned status " ++ toString response.status))
  else
    match response.data.errorCodes with
    | some codes => .error (handleErrorCodes config.provider codes)
    | Option.none =>
      if response.data.success then
        .ok response.data
      else
        .error (.http (validationFailedError config.provider))

/-- JavaScript falsiness of the optional token string: `!token` holds for an
absent token and for the empty string. -/
def tokenFalsy : Option String → Bool
  | Option.none => true
  | some s => s.isEmpty

/-- `CaptchaVerifier.verify` (`src/backend/captcha.ts:101-132`): missing
token → 400 `missing-captcha-token`; then the verification request; then the
action check (reCAPTCHA only); then the score/threshold comparison
(`captcha.score !== undefined && captcha.score < threshold` → `false`). -/
def verify (config : CaptchaConfiguration) (action : String) (token : Option String)
    (remoteIp : Option String) (response : FetchResponse) : Except JsError Bool :=
  if tokenFalsy token then
    .error (.http missingCaptchaTokenError)
  else
    match sendVerificationRequest config (token.getD "") remoteIp response with
    | .error e => .error e
    | .ok captcha =>
      if config.provider = CaptchaProvider.recaptcha && captcha.action != action then
        .error (.http actionMismatchError)
      else
        match captcha.score with
        | some s => if s < config.threshold then .ok false else .ok true
        | Option.none => .ok true

end CaptchaVerifier

/-- `verifyCaptcha` (`src/backend/captcha.ts:19-31`), embedded exactly as
written.  The `switch` on the provider reads:

```
case 'recaptcha':
case 'hcaptcha':
  const verifier = new CaptchaVerifier(config);
  verifier.verify.bind(verifier);
case 'none':
  return true;
```

The `recaptcha`/`hcaptcha` case constructs the verifier (the constructor
accepts both of these providers), evaluates `verifier.verify.bind(verifier)`
and discards the bound function without calling it, and — lacking a
`return`/`break` — falls through into the `'none'` case, returning `true`.
The second component of the result records whether a server-to-server
verification request was performed: it never is. -/
def verifyCaptcha (config : CaptchaConfiguration) (action : String)
    (token : Option String) (remoteIp : Option String) :
    Except JsError Bool × Bool :=
  match config.provider with
  | CaptchaProvider.recaptcha | CaptchaProvider.hcaptcha => (Except.ok true, false)
  | CaptchaProvider.none => (Except.ok true, false)

/-! ### Token authority

`src/backend/jwt.ts` is not present under `src/` — only its unit tests in
`src/backend/__tests__/captcha.test.ts` are — so the token authority is
modelled from the specification (§4.2) and from the observable behaviour the
tests pin down: HS512 signing with the process-wide `JWT_SECRET`, subject =
email, issuer = host, expiration = configured duration from issuance;
validation distinguishes `invalid-token` (bad signature or wrong issuer),
`expired-token`, and `missing-subject`, all 401. The HMAC signature is
modelled symbolically: a token records the secret it was signed with, and
signature verification succeeds exactly when the validating secret equals
the signing secret. Timestamps are naturals. -/

/-- The JWT claims that the token authority embeds: subject (email), issuer
(host), expiration timestamp. -/
structure TokenPayload where
  subject : Option String
  issuer : String
  expiresAt : Nat
deriving DecidableEq, Repr

/-- A serialized signed token: its payload together with the (symbolic)
signing secret. -/
structure SignedToken where
  payload : TokenPayload
  signedWith : String
deriving DecidableEq, Repr

/-- Validation failure for a bad signature, malformed token, or issuer
mismatch (401, `invalid-token`). -/
def invalidTokenError : HttpErrorProps :=
  ⟨401, "Unauthorized", some "invalid-token", Option.none⟩

/-- Validation failure for an elapsed expiration (401, `expired-token`). -/
def expiredTokenError : HttpErrorProps :=
  ⟨401, "Unauthorized", some "expired-token", Option.none⟩

/-- Validation failure for a valid token without a subject claim
(401, `missing-subject`). -/
def missingSubjectError : HttpErrorProps :=
  ⟨401, "Unauthorized", some "missing-subject", Option.none⟩

/-- Modelled from the spec: `createToken(email, issuer)` of the missing
`src/backend/jwt.ts` — signs `{subject: email, issuer: host}` with the
process-wide secret and an expiration `expiration` from issuance time
(`now`). -/
def createToken (email issuerHost : String) (now expiration : Nat)
    (secret : String) : SignedToken :=
  ⟨⟨some email, issuerHost, now + expiration⟩, secret⟩

/-- Modelled from the spec: `validateToken(token, issuer)` of the missing
`src/backend/jwt.ts` — verifies the signature, then expiry, then the issuer
claim against the expected issuer host, then requires a subject claim, and
returns the subject email. The expiration check follows the JWT rule that a
token is expired once the clock reaches `expiresAt`. -/
def validateToken (token : SignedToken) (expectedIssuer : String) (now : Nat)
    (secret : String) : Except HttpErrorProps String :=
  if token.signedWith ≠ secret then .error invalidTokenError
  else if token.payload.expiresAt ≤ now then .error expiredTokenError
  else if token.payload.issuer ≠ expectedIssuer then .error invalidTokenError
  else
    match token.payload.subject with
    | Option.none => .error missingSubjectError
    | some email => .ok email

/-! ### Subscription reconciler

`src/backend/subscription.ts` is likewise absent from `src/` — only its unit
tests are — so the reconciler is modelled from the specification (§4.3) and
the behaviour the tests pin down. The external contact store's answer to the
upsert (the `ContactSnapshot`) and the CAPTCHA verdict are passed in as
inputs; the boolean paired with the result records whether a confirmation
email was dispatched. -/

/-- `optInStatus` of a contact at the external store. -/
inductive OptInStatus where
  | pending
  | accepted
  | rejected
deriving DecidableEq, Repr

/-- `ContactSnapshot`: the external mailing-list service's view of a
subscriber. `mailingLists` is an association of list-id to membership flag;
a list-id absent from it means "not a member". -/
structure ContactSnapshot where
  id : String
  email : String
  subscribed : Bool
  optInStatus : OptInStatus
  mailingLists : List (String × Bool)
  referer : Option String := Option.none
deriving DecidableEq, Repr

/-- `membership.get(listId, false)`: membership flag of a list-id in the
snapshot, defaulting to `false` when the key is absent. -/
def membershipLookup (membership : List (String × Bool)) (listId : String) : Bool :=
  (membership.lookup listId).getD false

/-- The requested mailing lists the contact is not yet a member of. -/
def missingLists (requested : List String) (membership : List (String × Bool)) :
    List String :=
  requested.filter (fun listId => !membershipLookup membership listId)

/-- Inbound subscription request (`SubscribeRequest`). -/
structure SubscribeRequest where
  email : String
  captchaToken : Option String := Option.none
  mailingLists : List String := []
  language : String := "en"
  referer : Option String := Option.none
deriving DecidableEq, Repr

/-- The reconciler's answer: `{success, doubleOptIn, email}` as the tests
expect it. -/
structure SubscribeResult where
  success : Bool
  doubleOptIn : Bool
  email : String
deriving DecidableEq, Repr

/-- 500 raised when the public base URL env is missing (fatal configuration
error, per the tests: message contains `Internal Server error`, details
`missing URL env`). -/
def missingUrlError : HttpErrorProps :=
  ⟨500, "Internal Server error", Option.none, some "missing URL env"⟩

/-- 429 raised when the CAPTCHA verdict is `passed=false` (per the tests:
`Try again later`, details `Requestor categorized as bot`). -/
def botRejectionError : HttpErrorProps :=
  ⟨429, "Try again later", Option.none, some "Requestor categorized as bot"⟩

/-- 429 raised when the upserted contact has `optInStatus=rejected` (same
status family as the bot rejection, per spec §4.3 step 4). -/
def rejectedContactError : HttpErrorProps :=
  ⟨429, "Try again later", Option.none, some "Contact previously unsubscribed"⟩

/-- Modelled from the spec: `subscribe` of the missing
`src/backend/subscription.ts` (spec §4.3 Contract A). Inputs: the configured
public base URL (absent → fatal 500), the CAPTCHA verdict, the
`ContactSnapshot` returned by the external upsert, and the request. A
confirmation email is dispatched — recorded as the boolean paired with the
result — exactly when the snapshot is not subscribed overall or at least one
requested list is missing from its membership. -/
def subscribe (baseUrl : Option String) (captchaPassed : Bool)
    (snapshot : ContactSnapshot) (request : SubscribeRequest) :
    Except HttpErrorProps (SubscribeResult × Bool) :=
  match baseUrl with
  | Option.none => .error missingUrlError
  | some _ =>
    if !captchaPassed then .error botRejectionError
    else if snapshot.optInStatus = OptInStatus.rejected then .error rejectedContactError
    else
      let missing := missingLists request.mailingLists snapshot.mailingLists
      let needsConfirmation := !snapshot.subscribed || !missing.isEmpty
      .ok (⟨true, needsConfirmation, snapshot.email⟩, needsConfirmation)

/-- A catalog entry of the external mailing-list service. -/
structure MailingList where
  id : String
  name : String
  description : String
  isPublic : Bool
deriving DecidableEq, Repr

/-- A catalog entry merged with the contact's membership flag. -/
structure MailingListEntry where
  id : String
  name : String
  description : String
  isPublic : Bool
  subscribed : Bool
deriving DecidableEq, Repr

/-- The normalized view `getSubscription` returns for an existing contact. -/
structure SubscriptionView where
  success : Bool
  email : String
  subscribed : Bool
  optInStatus : OptInStatus
  mailingLists : List MailingListEntry
  referer : Option String
deriving DecidableEq, Repr

/-- 404 raised when no contact exists for the email. -/
def contactNotFoundError : HttpErrorProps :=
  ⟨404, "Contact not found", Option.none, Option.none⟩

/-- Merge one catalog entry with the contact's membership:
`subscribed = membership.get(listId, false)`. -/
def entryFor (membership : List (String × Bool)) (l : MailingList) : MailingListEntry :=
  ⟨l.id, l.name, l.description, l.isPublic, membershipLookup membership l.id⟩

/-- Modelled from the spec: `getSubscription` of the missing
`src/backend/subscription.ts` (spec §4.3 Contract B). Inputs: the external
store's answer to `findByEmail` and the full mailing-list catalog. One entry
per catalog list, `subscribed` defaulting to `false` for lists absent from
the contact's membership; no contact → 404. -/
def getSubscription (contact : Option ContactSnapshot) (catalog : List MailingList) :
    Except HttpErrorProps SubscriptionView :=
  match contact with
  | Option.none => .error contactNotFoundError
  | some c =>
    .ok ⟨true, c.email, c.subscribed, c.optInStatus,
      catalog.map (entryFor c.mailingLists), c.referer⟩

/-! ### Concrete fixtures

Mirroring the fixtures of `src/backend/__tests__/captcha.test.ts`: the test
environment configures threshold `0.5` and these site keys/secrets. -/

/-- The reCAPTCHA configuration the test environment sets up. -/
def recaptchaTestConfig : CaptchaConfiguration :=
  ⟨CaptchaProvider.recaptcha, "test-site-key", "test-recaptcha-secret", 1/2, "disclaimer"⟩

/-- The hCaptcha configuration the test environment sets up. -/
def hcaptchaTestConfig : CaptchaConfiguration :=
  ⟨CaptchaProvider.hcaptcha, "test-hcaptcha-site-key", "test-hcaptcha-secret", 1/2, "disclaimer"⟩

/-- A 2xx provider answer: `success:true, score:0.9, action:"subscribe"`. -/
def passingResponse : FetchResponse :=
  ⟨true, 200, ⟨true, some (9/10), "subscribe", "2024-01-01T00:00:00Z", "example.com", Option.none⟩⟩

/-- A 2xx provider answer additionally flagging `invalid-input-response`
while still reporting `success:true` and score `0.9`. -/
def invalidCodeResponse : FetchResponse :=
  ⟨true, 200, ⟨true, some (9/10), "subscribe", "2024-01-01T00:00:00Z", "example.com",
    some ["invalid-input-response"]⟩⟩

/-- A 2xx provider answer with score `0.9` but `action:"different-action"`. -/
def mismatchResponse : FetchResponse :=
  ⟨true, 200, ⟨true, some (9/10), "different-action", "2024-01-01T00:00:00Z", "example.com",
    Option.none⟩⟩

/-- A 2xx provider answer with the boundary score `0.5`, equal to the
configured threshold. -/
def boundaryScoreResponse : FetchResponse :=
  ⟨true, 200, ⟨true, some (1/2), "subscribe", "2024-01-01T00:00:00Z", "example.com", Option.none⟩⟩

/-- A 2xx provider answer with the below-threshold score `0.3`. -/
def lowScoreResponse : FetchResponse :=
  ⟨true, 200, ⟨true, some (3/10), "subscribe", "2024-01-01T00:00:00Z", "example.com",
    Option.none⟩⟩

/-- A 2xx provider answer reporting `success:false` with no error codes. -/
def failureResponse : FetchResponse :=
  ⟨true, 200, ⟨false, Option.none, "", "", "", Option.none⟩⟩

/-! ### Claims -/

/-- C1: the spec requires the public entry point `verifyCaptcha` to fail
with the 400 `missing-captcha-token` error when the token is absent for
providers recaptcha/hcaptcha, and never to answer `passed=true` without a
server-to-server verification call. The code violates this: the
recaptcha/hcaptcha case of the `switch` binds `verifier.verify` without
calling it and falls through to the `'none'` case, so `verifyCaptcha`
answers `ok true` with no verification request performed — while the inner
`CaptchaVerifier.verify` (the intended path, exercised directly by the
repository's own tests) does raise `missing-captcha-token` on an absent
token. -/
theorem c1_verifyCaptcha_skips_verification :
    (∀ (siteKey secret : String) (threshold : ℚ) (branding action : String)
        (remoteIp : Option String),
      verifyCaptcha ⟨CaptchaProvider.recaptcha, siteKey, secret, threshold, branding⟩
          action Option.none remoteIp = (Except.ok true, false) ∧
      verifyCaptcha ⟨CaptchaProvider.hcaptcha, siteKey, secret, threshold, branding⟩
          action Option.none remoteIp = (Except.ok true, false)) ∧
    (∀ (config : CaptchaConfiguration) (action : String) (remoteIp : Option String)
        (response : FetchResponse),
      CaptchaVerifier.verify config action Option.none remoteIp response
        = Except.error (JsError.http missingCaptchaTokenError)) :=
  ⟨fun _ _ _ _ _ _ => ⟨rfl, rfl⟩, fun _ _ _ _ => rfl⟩

/-- C8: for a non-empty provider error-code list, the taxonomy classifies
`timeout-or-duplicate`/`expired-input-response` (absent any BadCaptcha code)
as the retryable 429 `captcha-timeout`, and a list containing none of the
four taxonomy codes as the 500 server-side ProviderError. -/
theorem c8_error_code_taxonomy (provider : CaptchaProvider) (codes : List String)
    (hne : codes ≠ []) :
    (codes.contains "invalid-input-response" = false →
     codes.contains "missing-input-response" = false →
     (codes.contains "timeout-or-duplicate" = true ∨
       codes.contains "expired-input-response" = true) →
      CaptchaVerifier.handleErrorCodes provider codes
        = JsError.http (captchaTimeoutError codes)) ∧
    (codes.contains "invalid-input-response" = false →
     codes.contains "missing-input-response" = false →
     codes.contains "timeout-or-duplicate" = false →
     codes.contains "expired-input-response" = false →
      CaptchaVerifier.handleErrorCodes provider codes
        = JsError.http (unclassifiedCodesError codes)) := by
  unfold CaptchaVerifier.handleErrorCodes
  constructor
  · intro h1 h2 h3
    simp at h1 h2 h3
    rcases h3 with h3 | h3 <;> simp [h1, h2, h3]
  · intro h1 h2 h3 h4
    simp at h1 h2 h3 h4
    simp [h1, h2, h3, h4]

/-- Witness for C8: concrete classification of `["timeout-or-duplicate"]`
and of the unclassified `["bad-request"]`. -/
theorem c8_error_code_taxonomy_witness :
    CaptchaVerifier.handleErrorCodes CaptchaProvider.recaptcha ["timeout-or-duplicate"]
        = JsError.http (captchaTimeoutError ["timeout-or-duplicate"]) ∧
    CaptchaVerifier.handleErrorCodes CaptchaProvider.hcaptcha ["bad-request"]
        = JsError.http (unclassifiedCodesError ["bad-request"]) :=
  ⟨(c8_error_code_taxonomy CaptchaProvider.recaptcha ["timeout-or-duplicate"]
      (by simp)).1 rfl rfl (Or.inl rfl),
   (c8_error_code_taxonomy CaptchaProvider.hcaptcha ["bad-request"]
      (by simp)).2 rfl rfl rfl rfl⟩

/-- C4: token round-trip — a token issued for `(email, host)` with a
positive configured lifetime validates against the same host to that email,
and fails with `invalid-token` against any other issuer host. -/
theorem c4_token_roundtrip (email issuerHost secret : String) (now expiration : Nat)
    (hpos : 0 < expiration) :
    validateToken (createToken email issuerHost now expiration secret) issuerHost now secret
      = Except.ok email ∧
    ∀ otherHost, otherHost ≠ issuerHost →
      validateToken (createToken email issuerHost now expiration secret) otherHost now secret
        = Except.error invalidTokenError := by
  have hexp : ¬ (now + expiration ≤ now) := by omega
  constructor
  · simp [validateToken, createToken, hexp]
  · intro otherHost hne
    simp [validateToken, createToken, hexp, Ne.symm hne]

/-- Witness for C4: a concrete round-trip for
`("test@example.com", "example.com")`, with rejection at `"other.com"`. -/
theorem c4_token_roundtrip_witness :
    validateToken (createToken "test@example.com" "example.com" 1000 3600 "test-secret")
        "example.com" 1000 "test-secret" = Except.ok "test@example.com" ∧
    validateToken (createToken "test@example.com" "example.com" 1000 3600 "test-secret")
        "other.com" 1000 "test-secret" = Except.error invalidTokenError := by
  have h := c4_token_roundtrip "test@example.com" "example.com" "test-secret" 1000 3600
      (by omega)
  exact ⟨h.1, h.2 "other.com" (by decide)⟩

/-- C5: a token validated once its configured lifetime has elapsed fails
with the 401 `expired-token`; before expiry (valid signature, issuer and
subject) it validates to the subject email; a bad signature yields
`invalid-token`; and the two failure reasons are distinct. -/
theorem c5_token_expiry (email issuerHost secret : String) (now expiration later : Nat) :
    (now + expiration ≤ later →
      validateToken (createToken email issuerHost now expiration secret) issuerHost later secret
        = Except.error expiredTokenError) ∧
    (later < now + expiration →
      validateToken (createToken email issuerHost now expiration secret) issuerHost later secret
        = Except.ok email) ∧
    (∀ wrongSecret, wrongSecret ≠ secret →
      validateToken (createToken email issuerHost now expiration secret) issuerHost later
          wrongSecret = Except.error invalidTokenError) ∧
    expiredTokenError.reason ≠ invalidTokenError.reason := by
  refine ⟨?_, ?_, ?_, by decide⟩
  · intro hle
    simp [validateToken, createToken, hle]
  · intro hlt
    simp [validateToken, createToken, Nat.not_le.mpr hlt]
  · intro wrongSecret hne
    simp [validateToken, createToken, Ne.symm hne]

/-- Witness for C5: a token with lifetime `3600` issued at `1000` is
rejected as expired at `5000`, accepted at `4599`, and rejected as invalid
under the wrong secret. -/
theorem c5_token_expiry_witness :
    validateToken (createToken "test@example.com" "example.com" 1000 3600 "test-secret")
        "example.com" 5000 "test-secret" = Except.error expiredTokenError ∧
    validateToken (createToken "test@example.com" "example.com" 1000 3600 "test-secret")
        "example.com" 4599 "test-secret" = Except.ok "test@example.com" ∧
    validateToken (createToken "test@example.com" "example.com" 1000 3600 "test-secret")
        "example.com" 5000 "wrong-secret" = Except.error invalidTokenError := by
  have h := c5_token_expiry "test@example.com" "example.com" "test-secret" 1000 3600 5000
  have h2 := c5_token_expiry "test@example.com" "example.com" "test-secret" 1000 3600 4599
  exact ⟨h.1 (by omega), h2.2.1 (by omega), h.2.2.1 "wrong-secret" (by decide)⟩

/-- C2: a provider response whose `error-codes` list contains
`invalid-input-response` or `missing-input-response` makes verification fail
with the 400 `bad-captcha` error, for any simultaneous `success`, `score`
and `action` values — the response's error classification happens in
`sendVerificationRequest` before `verify`'s action and score checks. -/
theorem c2_error_codes_before_checks (config : CaptchaConfiguration) (action t : String)
    (remoteIp : Option String) (response : FetchResponse) (codes : List String)
    (hok : response.ok = true)
    (hcodes : response.data.errorCodes = some codes)
    (hbad : codes.contains "invalid-input-response" = true ∨
            codes.contains "missing-input-response" = true)
    (ht : t.isEmpty = false) :
    CaptchaVerifier.verify config action (some t) remoteIp response
      = Except.error (JsError.http (badCaptchaError codes)) := by
  have hsend : CaptchaVerifier.sendVerificationRequest config t remoteIp
      response = Except.error (CaptchaVerifier.handleErrorCodes config.provider codes) := by
    simp [CaptchaVerifier.sendVerificationRequest, hok, hcodes]
  rcases hbad with h | h <;> simp at h <;>
    simp [CaptchaVerifier.verify, CaptchaVerifier.tokenFalsy, ht, hsend,
      CaptchaVerifier.handleErrorCodes, h]

/-- Witness for C2: the test fixture — `success:true`, `score:0.9`,
matching action, `error-codes:["invalid-input-response"]` — fails as
`bad-captcha`, not accepted. -/
theorem c2_error_codes_before_checks_witness :
    CaptchaVerifier.verify recaptchaTestConfig "subscribe" (some "test-token") Option.none
        invalidCodeResponse
      = Except.error (JsError.http (badCaptchaError ["invalid-input-response"])) :=
  c2_error_codes_before_checks recaptchaTestConfig "subscribe" "test-token" Option.none
    invalidCodeResponse ["invalid-input-response"] rfl rfl (Or.inl rfl) rfl

/-- C6: with a 2xx `success:true` response carrying a numeric score, no
error codes, and a matching action, verification yields `passed=true` when
the score is at or above the configured threshold (so the boundary value
`score == threshold` passes) and `passed=false`, with no error raised, when
the score is strictly below it. -/
theorem c6_score_threshold_boundary (config : CaptchaConfiguration) (action t : String)
    (remoteIp : Option String) (response : FetchResponse) (s : ℚ)
    (hprov : config.provider ≠ CaptchaProvider.none)
    (hok : response.ok = true) (hsuccess : response.data.success = true)
    (hcodes : response.data.errorCodes = Option.none)
    (haction : response.data.action = action)
    (hscore : response.data.score = some s)
    (ht : t.isEmpty = false) :
    (config.threshold ≤ s →
      CaptchaVerifier.verify config action (some t) remoteIp response = Except.ok true) ∧
    (s < config.threshold →
      CaptchaVerifier.verify config action (some t) remoteIp response = Except.ok false) := by
  have hsend : CaptchaVerifier.sendVerificationRequest config t remoteIp
      response = Except.ok response.data := by
    simp [CaptchaVerifier.sendVerificationRequest, hok, hcodes, hsuccess]
  constructor
  · intro hge
    simp [CaptchaVerifier.verify, CaptchaVerifier.tokenFalsy, ht, hsend, haction, hscore,
      not_lt.mpr hge]
  · intro hlt
    simp [CaptchaVerifier.verify, CaptchaVerifier.tokenFalsy, ht, hsend, haction, hscore, hlt]

/-- Witness for C6: with threshold `0.5`, the boundary score `0.5` passes
(for recaptcha) and the score `0.3` yields `passed=false` without error
(for hcaptcha). -/
theorem c6_score_threshold_boundary_witness :
    CaptchaVerifier.verify recaptchaTestConfig "subscribe" (some "test-token") Option.none
        boundaryScoreResponse = Except.ok true ∧
    CaptchaVerifier.verify hcaptchaTestConfig "subscribe" (some "test-token") Option.none
        lowScoreResponse = Except.ok false :=
  ⟨(c6_score_threshold_boundary recaptchaTestConfig "subscribe" "test-token" Option.none
      boundaryScoreResponse (1/2) (by decide) rfl rfl rfl rfl rfl rfl).1
      (by norm_num [recaptchaTestConfig]),
   (c6_score_threshold_boundary hcaptchaTestConfig "subscribe" "test-token" Option.none
      lowScoreResponse (3/10) (by decide) rfl rfl rfl rfl rfl rfl).2
      (by norm_num [hcaptchaTestConfig])⟩

/-- Helper: every structured `HttpError` that `sendVerificationRequest` can
raise carries reason `bad-captcha`, `captcha-timeout` or no reason at all —
in particular never `captcha-action-mismatch`. -/
theorem sendVerificationRequest_reason_classes (config : CaptchaConfiguration) (t : String)
    (remoteIp : Option String) (response : FetchResponse) (e : HttpErrorProps)
    (h : CaptchaVerifier.sendVerificationRequest config t remoteIp response
          = Except.error (JsError.http e)) :
    e.reason = some "bad-captcha" ∨ e.reason = some "captcha-timeout" ∨
      e.reason = Option.none := by
  unfold CaptchaVerifier.sendVerificationRequest at h
  split at h
  · simp at h
  · split at h
    · unfold CaptchaVerifier.handleErrorCodes at h
      split at h
      · simp at h
        subst h
        left; rfl
      · split at h
        · simp at h
          subst h
          right; left; rfl
        · simp at h
          subst h
          right; right; rfl
    · split at h
      · simp at h
      · simp at h
        subst h
        right; right; rfl

/-- C7: for provider recaptcha, a 2xx `success:true` response with no error
codes whose `action` differs from the requested action fails with the 400
`captcha-action-mismatch` error, whatever the reported score; for provider
hcaptcha no outcome of `verify` ever carries the `captcha-action-mismatch`
reason — the action comparison is skipped entirely. -/
theorem c7_action_mismatch_recaptcha_only :
    (∀ (config : CaptchaConfiguration) (action t : String) (remoteIp : Option String)
        (response : FetchResponse),
      config.provider = CaptchaProvider.recaptcha →
      response.ok = true → response.data.errorCodes = Option.none →
      response.data.success = true → response.data.action ≠ action →
      t.isEmpty = false →
      CaptchaVerifier.verify config action (some t) remoteIp response
        = Except.error (JsError.http actionMismatchError)) ∧
    (∀ (config : CaptchaConfiguration) (action : String) (token remoteIp : Option String)
        (response : FetchResponse) (e : HttpErrorProps),
      config.provider = CaptchaProvider.hcaptcha →
      CaptchaVerifier.verify config action token remoteIp response
        = Except.error (JsError.http e) →
      e.reason ≠ some "captcha-action-mismatch") := by
  constructor
  · intro config action t remoteIp response hprov hok hcodes hsuccess hne ht
    have hsend : CaptchaVerifier.sendVerificationRequest config t remoteIp
        response = Except.ok response.data := by
      simp [CaptchaVerifier.sendVerificationRequest, hok, hcodes, hsuccess]
    simp [CaptchaVerifier.verify, CaptchaVerifier.tokenFalsy, ht, hsend, hprov, hne]
  · intro config action token remoteIp response e hprov h
    unfold CaptchaVerifier.verify at h
    by_cases htok : CaptchaVerifier.tokenFalsy token = true
    · rw [if_pos htok] at h
      simp at h
      subst h
      decide
    · rw [if_neg htok] at h
      rcases hsend : CaptchaVerifier.sendVerificationRequest config (token.getD "") remoteIp
          response with e2 | captcha
      · rw [hsend] at h
        simp at h
        subst h
        rcases sendVerificationRequest_reason_classes config (token.getD "") remoteIp
            response e hsend with hr | hr | hr <;> rw [hr] <;> simp
      · rw [hsend] at h
        dsimp only at h
        split at h
        · rename_i hcond
          rw [hprov] at hcond
          simp at hcond
        · rcases hscorem : captcha.score with _ | s <;> rw [hscorem] at h <;>
            dsimp only at h
          · simp at h
          · split at h <;> simp at h

/-- Witness for C7: the test fixture — score `0.9`, `action:"different-action"`
against requested `"subscribe"` on recaptcha — fails with
`captcha-action-mismatch`; and an hcaptcha run on the same response that
does fail (here: with a missing token) does not carry that reason. -/
theorem c7_action_mismatch_recaptcha_only_witness :
    CaptchaVerifier.verify recaptchaTestConfig "subscribe" (some "test-token") Option.none
        mismatchResponse = Except.error (JsError.http actionMismatchError) ∧
    missingCaptchaTokenError.reason ≠ some "captcha-action-mismatch" :=
  ⟨c7_action_mismatch_recaptcha_only.1 recaptchaTestConfig "subscribe" "test-token"
      Option.none mismatchResponse rfl rfl rfl rfl (by decide) rfl,
   c7_action_mismatch_recaptcha_only.2 hcaptchaTestConfig "subscribe" Option.none
      Option.none mismatchResponse missingCaptchaTokenError rfl rfl⟩

/-- Helper: a successful `sendVerificationRequest` returns exactly the
parsed response body. -/
theorem sendVerificationRequest_ok_eq (config : CaptchaConfiguration) (t : String)
    (remoteIp : Option String) (response : FetchResponse) (captcha : CaptchaResponse)
    (h : CaptchaVerifier.sendVerificationRequest config t remoteIp response
          = Except.ok captcha) :
    captcha = response.data := by
  unfold CaptchaVerifier.sendVerificationRequest at h
  split at h
  · simp at h
  · split at h
    · simp at h
    · split at h
      · simp at h
        exact h.symm
      · simp at h

/-- C10: a 2xx provider response reporting `success:false` with no
`error-codes` field makes the verification call throw the generic 500
`Internal server error` (provider-error class, no machine reason) rather
than produce `passed=false`; dually, `verify` answers `passed=false` only
when the response carries a score strictly below the threshold. -/
theorem c10_success_false_is_server_error (config : CaptchaConfiguration) (t : String)
    (remoteIp : Option String) (response : FetchResponse)
    (hok : response.ok = true) (hcodes : response.data.errorCodes = Option.none)
    (hfail : response.data.success = false) :
    CaptchaVerifier.sendVerificationRequest config t remoteIp response
      = Except.error (JsError.http (validationFailedError config.provider)) ∧
    ∀ (config2 : CaptchaConfiguration) (action2 : String) (token2 remoteIp2 : Option String)
        (response2 : FetchResponse),
      CaptchaVerifier.verify config2 action2 token2 remoteIp2 response2 = Except.ok false →
      ∃ s, response2.data.score = some s ∧ s < config2.threshold := by
  constructor
  · simp [CaptchaVerifier.sendVerificationRequest, hok, hcodes, hfail]
  · intro config2 action2 token2 remoteIp2 response2 h
    unfold CaptchaVerifier.verify at h
    by_cases htok : CaptchaVerifier.tokenFalsy token2 = true
    · rw [if_pos htok] at h
      simp at h
    · rw [if_neg htok] at h
      rcases hsend : CaptchaVerifier.sendVerificationRequest config2 (token2.getD "")
          remoteIp2 response2 with e2 | captcha
      · rw [hsend] at h
        simp at h
      · rw [hsend] at h
        dsimp only at h
        have hcap : captcha = response2.data :=
          sendVerificationRequest_ok_eq config2 (token2.getD "") remoteIp2 response2
            captcha hsend
        split at h
        · simp at h
        · rcases hscorem : captcha.score with _ | s <;> rw [hscorem] at h <;>
            dsimp only at h
          · simp at h
          · by_cases hlt : s < config2.threshold
            · exact ⟨s, hcap ▸ hscorem, hlt⟩
            · rw [if_neg hlt] at h
              simp at h

/-- Witness for C10: the test fixture `{success:false}` over a 2xx
transport yields the 500 `Internal server error` for recaptcha; and the one
concrete `passed=false` outcome indeed comes with a below-threshold score. -/
theorem c10_success_false_is_server_error_witness :
    (CaptchaVerifier.sendVerificationRequest recaptchaTestConfig "test-token" Option.none
        failureResponse
      = Except.error (JsError.http (validationFailedError CaptchaProvider.recaptcha))) ∧
    ∃ s, lowScoreResponse.data.score = some s ∧ s < hcaptchaTestConfig.threshold := by
  refine ⟨(c10_success_false_is_server_error recaptchaTestConfig "test-token" Option.none
      failureResponse rfl rfl rfl).1,
    (c10_success_false_is_server_error recaptchaTestConfig "test-token" Option.none
      failureResponse rfl rfl rfl).2 hcaptchaTestConfig "subscribe" (some "test-token")
      Option.none lowScoreResponse ?_⟩
  have h1 : CaptchaVerifier.verify hcaptchaTestConfig "subscribe" (some "test-token")
      Option.none lowScoreResponse
      = if (3/10 : ℚ) < (1/2 : ℚ) then Except.ok false else Except.ok true := rfl
  rw [h1, if_pos (by norm_num)]

/-- Helper: the missing-list computation is empty exactly when every
requested list is already in the snapshot's membership. -/
theorem missingLists_isEmpty_iff (requested : List String)
    (membership : List (String × Bool)) :
    (missingLists requested membership).isEmpty = false ↔
      ∃ l ∈ requested, membershipLookup membership l = false := by
  rw [List.isEmpty_eq_false_iff_exists_mem]
  constructor
  · rintro ⟨l, hl⟩
    rw [missingLists, List.mem_filter] at hl
    exact ⟨l, hl.1, by simpa using hl.2⟩
  · rintro ⟨l, hl, hmem⟩
    exact ⟨l, by rw [missingLists, List.mem_filter]; exact ⟨hl, by simp [hmem]⟩⟩

/-- The already-subscribed contact of the tests: `accepted`,
`subscribed:true`, member of `list-1` only. -/
def subscribedSnapshot : ContactSnapshot :=
  ⟨"contact-123", "test@example.com", true, OptInStatus.accepted, [("list-1", true)],
    some "https://example.com/page"⟩

/-- The request of the tests asking for `list-1` and `list-2`. -/
def twoListRequest : SubscribeRequest :=
  ⟨"test@example.com", some "captcha-token", ["list-1", "list-2"], "en",
    some "https://example.com/page"⟩

/-- C3: with the CAPTCHA passed and a non-rejected upserted snapshot,
`subscribe` succeeds and dispatches a confirmation email exactly when the
snapshot is not subscribed overall or at least one requested mailing list is
missing from its membership — requesting only lists inside the membership of
a subscribed contact sends no email, requesting any list outside it does. -/
theorem c3_confirmation_email_iff (url : String) (snapshot : ContactSnapshot)
    (request : SubscribeRequest) (hrej : snapshot.optInStatus ≠ OptInStatus.rejected) :
    ∃ result : SubscribeResult × Bool,
      subscribe (some url) true snapshot request = Except.ok result ∧
      result.1.doubleOptIn = result.2 ∧
      (result.2 = true ↔ (snapshot.subscribed = false ∨
        ∃ l ∈ request.mailingLists, membershipLookup snapshot.mailingLists l = false)) := by
  refine ⟨(⟨true,
      !snapshot.subscribed || !(missingLists request.mailingLists snapshot.mailingLists).isEmpty,
      snapshot.email⟩,
      !snapshot.subscribed || !(missingLists request.mailingLists snapshot.mailingLists).isEmpty),
      ?_, rfl, ?_⟩
  · simp [subscribe, hrej]
  · rw [Bool.or_eq_true, Bool.not_eq_true', Bool.not_eq_true']
    exact or_congr Iff.rfl (missingLists_isEmpty_iff request.mailingLists snapshot.mailingLists)

/-- Witness for C3: the accepted, fully subscribed contact of the tests with
membership `{list-1}`, requesting `list-1` and `list-2`. -/
theorem c3_confirmation_email_iff_witness :
    ∃ result : SubscribeResult × Bool,
      subscribe (some "https://example.com") true subscribedSnapshot twoListRequest
        = Except.ok result ∧
      result.1.doubleOptIn = result.2 ∧
      (result.2 = true ↔ (subscribedSnapshot.subscribed = false ∨
        ∃ l ∈ twoListRequest.mailingLists,
          membershipLookup subscribedSnapshot.mailingLists l = false)) :=
  c3_confirmation_email_iff "https://example.com" subscribedSnapshot twoListRequest
    (by decide)

/-- The two-list catalog of the tests. -/
def testCatalog : List MailingList :=
  [⟨"list-1", "Newsletter", "Main newsletter", true⟩,
   ⟨"list-2", "Updates", "Updates", true⟩]

/-- C9: for an existing contact, `getSubscription` returns one entry per
catalog list with `subscribed = membership.get(listId, false)` — a catalog
list absent from the contact's membership appears with `subscribed=false`
rather than being omitted — and it fails with the 404 ContactNotFound error
when no contact exists for the email. -/
theorem c9_getSubscription_catalog (c : ContactSnapshot) (catalog : List MailingList) :
    (∃ view, getSubscription (some c) catalog = Except.ok view ∧
      view.mailingLists.length = catalog.length ∧
      (∀ l ∈ catalog, ∃ e ∈ view.mailingLists,
        e.id = l.id ∧ e.subscribed = ((c.mailingLists.lookup l.id).getD false)) ∧
      (∀ l ∈ catalog, c.mailingLists.lookup l.id = Option.none →
        (⟨l.id, l.name, l.description, l.isPublic, false⟩ : MailingListEntry)
          ∈ view.mailingLists)) ∧
    getSubscription Option.none catalog = Except.error contactNotFoundError := by
  constructor
  · refine ⟨_, rfl, ?_, ?_, ?_⟩
    · simp [List.length_map]
    · intro l hl
      exact ⟨entryFor c.mailingLists l, List.mem_map_of_mem _ hl, rfl, rfl⟩
    · intro l hl habs
      have he : entryFor c.mailingLists l
          = ⟨l.id, l.name, l.description, l.isPublic, false⟩ := by
        simp [entryFor, membershipLookup, habs]
      exact he ▸ List.mem_map_of_mem _ hl
  · rfl

/-- Witness for C9: the partial-membership contact of the tests (member of
`list-1` only) against the catalog `{list-1, list-2}`; in particular
`list-2` appears with `subscribed=false`. -/
theorem c9_getSubscription_catalog_witness :
    (∃ view, getSubscription (some subscribedSnapshot) testCatalog = Except.ok view ∧
      view.mailingLists.length = testCatalog.length ∧
      (∀ l ∈ testCatalog, ∃ e ∈ view.mailingLists,
        e.id = l.id ∧
          e.subscribed = ((subscribedSnapshot.mailingLists.lookup l.id).getD false)) ∧
      (∀ l ∈ testCatalog, subscribedSnapshot.mailingLists.lookup l.id = Option.none →
        (⟨l.id, l.name, l.description, l.isPublic, false⟩ : MailingListEntry)
          ∈ view.mailingLists)) ∧
    getSubscription Option.none testCatalog = Except.error contactNotFoundError :=
  c9_getSubscription_catalog subscribedSnapshot testCatalog

end Carajillo
